import Mathlib

/-!
Verification development for a job-board HTTP backend.

The system under study consists of two route files:
* a collection route (`/jobs`) with handlers `GET` (list) and `POST` (create),
  together with the zod validation schemas `jobSchema` and `approveJobSchema`;
* an item route (`/jobs/{id}`) with handlers `GET` (fetch one), `PUT` (approve)
  and `DELETE`.

The embedding below follows the source line by line:
* JSON request bodies are modelled by the inductive type `Json`
  (JavaScript numbers are modelled as `Int`; no behaviour studied here
  involves fractional values);
* the zod schemas are modelled as total functions from `Json` to
  `Except (List ZodIssue) _`, reproducing zod semantics: a `z.object`
  in its default mode strips unknown keys (it does not reject them),
  `.optional()` accepts a missing key but not `null`, and on failure all
  field-level issues are collected into a list;
* the Supabase client is modelled by a `Store`: a list of rows plus a
  transport-failure flag.  Each logical operation (`select-all`,
  `select-by-id .single()`, `insert-one`, `update-by-id`, `delete-by-id`)
  is a single function on `Store`.  `.single()` yields a row exactly when
  precisely one row matches (PostgREST errors on zero or several rows);
  a `delete` matching zero rows succeeds with no error (PostgREST reports
  an error only for transport/query failures, not an empty match);
* each handler is a function from its inputs and the store to a
  `Response × Store`.  `await req.json()` throwing on an unparseable body
  is modelled by an `Option Json` argument where the body can appear
  inside a `try` (the create handler); `new Date().toISOString()` is
  modelled by an explicit `now : String` argument.
-/

/-- A JSON value.  Numbers are modelled as `Int`. -/
inductive Json where
  | null : Json
  | bool (b : Bool) : Json
  | num (n : Int) : Json
  | str (s : String) : Json
  | arr (elems : List Json) : Json
  | obj (fields : List (String × Json)) : Json
deriving Repr, BEq

/-- One field-level zod validation issue: a path into the payload and a message. -/
structure ZodIssue where
  path : List String
  message : String
deriving Repr, DecidableEq

/-- First binding of key `k` in a JSON object's field list
(JavaScript object semantics: at most one binding per key is observable). -/
def lookupField (fields : List (String × Json)) (k : String) : Option Json :=
  match fields with
  | [] => none
  | (k2, v) :: rest => if k2 = k then some v else lookupField rest k

/-- Replace the first binding of key `k` (or append one): used to state
properties of the form "the same payload with this field changed". -/
def setField (fields : List (String × Json)) (k : String) (v : Json) :
    List (String × Json) :=
  match fields with
  | [] => [(k, v)]
  | (k2, v2) :: rest =>
      if k2 = k then (k2, v) :: rest else (k2, v2) :: setField rest k v

/-- Approximation of zod's `.email()` string-pattern check (a regex in the
source).  The exact extension of the pattern is irrelevant to every claim
settled in this file; only that it is a pure check on the string. -/
def isEmailFormat (s : String) : Bool :=
  match s.splitOn "@" with
  | [lp, dom] => lp.length ≥ 1 && dom.contains '.' && dom.length ≥ 3 && !s.contains ' '
  | _ => false

/-- Approximation of zod's `.url()` check (`new URL(s)` succeeding in the
source).  As with `isEmailFormat`, no claim depends on its exact extension. -/
def isUrlFormat (s : String) : Bool :=
  ("http://".isPrefixOf s && s.length > 7) || ("https://".isPrefixOf s && s.length > 8)

/-- Models `z.string().min(1)`: required, must be a string of length at least 1. -/
def checkStringMin1 (k : String) (v : Option Json) : List ZodIssue :=
  match v with
  | none => [⟨[k], "Required"⟩]
  | some (.str s) =>
      if s.length ≥ 1 then [] else [⟨[k], "String must contain at least 1 character(s)"⟩]
  | some _ => [⟨[k], "Expected string"⟩]

/-- Models `z.string()`: required, any string. -/
def checkString (k : String) (v : Option Json) : List ZodIssue :=
  match v with
  | none => [⟨[k], "Required"⟩]
  | some (.str _) => []
  | some _ => [⟨[k], "Expected string"⟩]

/-- Models `z.string().optional()`: missing key accepted, present value must be a string. -/
def checkOptionalString (k : String) (v : Option Json) : List ZodIssue :=
  match v with
  | none => []
  | some (.str _) => []
  | some _ => [⟨[k], "Expected string"⟩]

/-- Models `z.string().email().optional()`. -/
def checkOptionalEmail (k : String) (v : Option Json) : List ZodIssue :=
  match v with
  | none => []
  | some (.str s) => if isEmailFormat s then [] else [⟨[k], "Invalid email"⟩]
  | some _ => [⟨[k], "Expected string"⟩]

/-- Models `z.string().url().optional()`. -/
def checkOptionalUrl (k : String) (v : Option Json) : List ZodIssue :=
  match v with
  | none => []
  | some (.str s) => if isUrlFormat s then [] else [⟨[k], "Invalid url"⟩]
  | some _ => [⟨[k], "Expected string"⟩]

/-- Models `z.number().optional()`. -/
def checkOptionalNumber (k : String) (v : Option Json) : List ZodIssue :=
  match v with
  | none => []
  | some (.num _) => []
  | some _ => [⟨[k], "Expected number"⟩]

/-- Models `z.number().nonnegative()`: required, must be a number `≥ 0`. -/
def checkNonnegNumber (k : String) (v : Option Json) : List ZodIssue :=
  match v with
  | none => [⟨[k], "Required"⟩]
  | some (.num n) =>
      if 0 ≤ n then [] else [⟨[k], "Number must be greater than or equal to 0"⟩]
  | some _ => [⟨[k], "Expected number"⟩]

/-- Models `z.boolean()`: required, must be a boolean. -/
def checkBool (k : String) (v : Option Json) : List ZodIssue :=
  match v with
  | none => [⟨[k], "Required"⟩]
  | some (.bool _) => []
  | some _ => [⟨[k], "Expected boolean"⟩]

/-- The output type of `jobSchema.safeParse(...).data`: the validated job
creation payload.  Field names and optionality follow the zod schema. -/
structure JobInput where
  id : Option Int
  slug : String
  title : String
  type : String
  location_type : String
  location : Option String
  description : Option String
  salary : Int
  company_name : String
  application_email : Option String
  application_url : Option String
  company_logo_url : Option String
  approved : Bool
  created_at : String
  updated_at : String
deriving Repr, DecidableEq

/-- All issues raised by `jobSchema` on an object payload, one checker per
declared key, in declaration order.  Unknown keys are never consulted
(zod default object mode strips them). -/
def jobIssues (fields : List (String × Json)) : List ZodIssue :=
  checkOptionalNumber "id" (lookupField fields "id")
  ++ checkStringMin1 "slug" (lookupField fields "slug")
  ++ checkStringMin1 "title" (lookupField fields "title")
  ++ checkStringMin1 "type" (lookupField fields "type")
  ++ checkStringMin1 "location_type" (lookupField fields "location_type")
  ++ checkOptionalString "location" (lookupField fields "location")
  ++ checkOptionalString "description" (lookupField fields "description")
  ++ checkNonnegNumber "salary" (lookupField fields "salary")
  ++ checkStringMin1 "company_name" (lookupField fields "company_name")
  ++ checkOptionalEmail "application_email" (lookupField fields "application_email")
  ++ checkOptionalUrl "application_url" (lookupField fields "application_url")
  ++ checkOptionalUrl "company_logo_url" (lookupField fields "company_logo_url")
  ++ checkBool "approved" (lookupField fields "approved")
  ++ checkString "created_at" (lookupField fields "created_at")
  ++ checkString "updated_at" (lookupField fields "updated_at")

/-- Extract a required string field (defined only when its checker passed). -/
def getString (fields : List (String × Json)) (k : String) : String :=
  match lookupField fields k with
  | some (.str s) => s
  | _ => ""

/-- Extract an optional string field. -/
def getOptString (fields : List (String × Json)) (k : String) : Option String :=
  match lookupField fields k with
  | some (.str s) => some s
  | _ => none

/-- Extract a required number field. -/
def getNumber (fields : List (String × Json)) (k : String) : Int :=
  match lookupField fields k with
  | some (.num n) => n
  | _ => 0

/-- Extract an optional number field. -/
def getOptNumber (fields : List (String × Json)) (k : String) : Option Int :=
  match lookupField fields k with
  | some (.num n) => some n
  | _ => none

/-- Extract a required boolean field. -/
def getBool (fields : List (String × Json)) (k : String) : Bool :=
  match lookupField fields k with
  | some (.bool b) => b
  | _ => false

/-- Models `jobSchema.safeParse`: on an object, collect all field issues; succeed with
the extracted record exactly when there is none.  A non-object payload fails
with a single top-level issue. -/
def jobSchemaParse (j : Json) : Except (List ZodIssue) JobInput :=
  match j with
  | .obj fields =>
      match jobIssues fields with
      | [] => .ok
          { id := getOptNumber fields "id"
            slug := getString fields "slug"
            title := getString fields "title"
            type := getString fields "type"
            location_type := getString fields "location_type"
            location := getOptString fields "location"
            description := getOptString fields "description"
            salary := getNumber fields "salary"
            company_name := getString fields "company_name"
            application_email := getOptString fields "application_email"
            application_url := getOptString fields "application_url"
            company_logo_url := getOptString fields "company_logo_url"
            approved := getBool fields "approved"
            created_at := getString fields "created_at"
            updated_at := getString fields "updated_at" }
      | i :: rest => .error (i :: rest)
  | _ => .error [⟨[], "Expected object"⟩]

/-- The output type of `approveJobSchema.safeParse(...).data`. -/
structure ApproveInput where
  approved : Bool
deriving Repr, DecidableEq

/-- Models `approveJobSchema.safeParse`, i.e. `z.object({ approved: z.literal(true) })`.
Succeeds exactly when the payload is an object whose `approved` field is the
boolean `true`; unknown keys are stripped, not rejected (zod default mode). -/
def approveJobSchemaParse (j : Json) : Except (List ZodIssue) ApproveInput :=
  match j with
  | .obj fields =>
      match lookupField fields "approved" with
      | some (.bool true) => .ok ⟨true⟩
      | some _ => .error [⟨["approved"], "Invalid literal value, expected true"⟩]
      | none => .error [⟨["approved"], "Invalid literal value, expected true"⟩]
  | _ => .error [⟨[], "Expected object"⟩]

/-- One row of the `jobs` table. -/
structure Job where
  id : Int
  slug : String
  title : String
  type : String
  location_type : String
  location : Option String
  description : Option String
  salary : Int
  company_name : String
  application_email : Option String
  application_url : Option String
  company_logo_url : Option String
  approved : Bool
  created_at : String
  updated_at : String
deriving Repr, DecidableEq

/-- The persistence backend: the rows of the `jobs` table plus a flag for a
transport/store-level failure (when set, every store operation errors). -/
structure Store where
  rows : List Job
  failure : Bool
deriving Repr, DecidableEq

/-- Models `.eq("id", idStr)`: the path parameter is a string compared against the
integer `id` column (PostgREST coerces the text filter value). -/
def rowMatches (idStr : String) (j : Job) : Bool :=
  toString j.id == idStr

/-- Models `select("*")` over the whole table. -/
def selectAll (s : Store) : Except String (List Job) :=
  if s.failure then .error "store error" else .ok s.rows

/-- Models `select("*").eq("id", idStr).single()`: PostgREST `.single()` yields a row
exactly when precisely one row matches, and errors otherwise; the handlers
collapse "error" and "no data" into one branch, hence `Option`. -/
def selectSingle (s : Store) (idStr : String) : Option Job :=
  if s.failure then none
  else
    match s.rows.filter (rowMatches idStr) with
    | [j] => some j
    | _ => none

/-- The id the store would assign to a fresh row. -/
def nextId (s : Store) : Int :=
  (s.rows.foldl (fun m j => max m j.id) 0) + 1

/-- The row built from an insert payload: every field of the payload is stored
as given; only a missing `id` is replaced by the store-assigned one. -/
def rowOfInput (d : JobInput) (assigned : Int) : Job :=
  { id := d.id.getD assigned
    slug := d.slug
    title := d.title
    type := d.type
    location_type := d.location_type
    location := d.location
    description := d.description
    salary := d.salary
    company_name := d.company_name
    application_email := d.application_email
    application_url := d.application_url
    company_logo_url := d.company_logo_url
    approved := d.approved
    created_at := d.created_at
    updated_at := d.updated_at }

/-- Models `insert(...)`: append one row. -/
def insertOne (s : Store) (d : JobInput) : Except String Store :=
  if s.failure then .error "store error"
  else .ok { s with rows := s.rows ++ [rowOfInput d (nextId s)] }

/-- The overlay the approve handler builds:
`{ ...existingJob, approved: true, updated_at: now }`. -/
def applyApproval (now : String) (j : Job) : Job :=
  { j with approved := true, updated_at := now }

/-- Models `update({ approved: true, updated_at: now }).eq("id", idStr)`: a partial
update touching only the `approved` and `updated_at` columns of matching rows. -/
def updateApproval (s : Store) (idStr : String) (now : String) : Except String Store :=
  if s.failure then .error "store error"
  else .ok { s with rows := s.rows.map (fun j => if rowMatches idStr j then applyApproval now j else j) }

/-- Models `delete().eq("id", idStr)`: remove matching rows.  A delete matching zero
rows is a success with no error; only a transport/store failure errors. -/
def deleteById (s : Store) (idStr : String) : Except String Store :=
  if s.failure then .error "store error"
  else .ok { s with rows := s.rows.filter (fun j => !(rowMatches idStr j)) }

/-- The JSON body of an HTTP response, one constructor per shape the handlers
produce. -/
inductive RespBody where
  | text (s : String) : RespBody
  | message (s : String) : RespBody
  | errorMsg (s : String) : RespBody
  | errorIssues (issues : List ZodIssue) : RespBody
  | jobList (l : List Job) : RespBody
  | jobData (j : Job) : RespBody
  | messageJob (m : String) (j : Job) : RespBody
deriving Repr, DecidableEq

/-- An HTTP response: status code and JSON body. -/
structure Response where
  status : Nat
  body : RespBody
deriving Repr, DecidableEq

namespace JobsRoute

/-- Collection `GET /jobs`: list all rows, or 500 with the store's message. -/
def GET (s : Store) : Response :=
  match selectAll s with
  | .error m => ⟨500, .errorMsg m⟩
  | .ok jobs => ⟨200, .jobList jobs⟩

/-- Collection `POST /jobs` (create).  `body = none` models `req.json()`
throwing on an unparseable body, which the surrounding `try` converts to a
500 with a fixed message.  Returns the response and the store after the call. -/
def POST (body : Option Json) (s : Store) : Response × Store :=
  match body with
  | none => (⟨500, .errorMsg "Failed to create job"⟩, s)
  | some b =>
      match jobSchemaParse b with
      | .error issues => (⟨400, .errorIssues issues⟩, s)
      | .ok d =>
          match insertOne s d with
          | .error m => (⟨500, .errorMsg m⟩, s)
          | .ok s2 => (⟨201, .text "job created successfully"⟩, s2)

end JobsRoute

namespace JobIdRoute

/-- Item `GET /jobs/{id}`: fetch one row or 404. -/
def GET (idStr : String) (s : Store) : Response :=
  match selectSingle s idStr with
  | none => ⟨404, .errorMsg "Job not found"⟩
  | some j => ⟨200, .jobData j⟩

/-- Item `PUT /jobs/{id}` (approve).  Follows the handler order: missing id
check (`!id`, i.e. the empty string), body validation, re-read by id,
partial update, 200 with the locally constructed view. -/
def PUT (idStr : String) (body : Json) (now : String) (s : Store) : Response × Store :=
  if idStr = "" then (⟨400, .errorMsg "ID is required"⟩, s)
  else
    match approveJobSchemaParse body with
    | .error issues => (⟨400, .errorIssues issues⟩, s)
    | .ok _ =>
        match selectSingle s idStr with
        | none => (⟨404, .errorMsg ("Job with ID " ++ idStr ++ " not found")⟩, s)
        | some existingJob =>
            match updateApproval s idStr now with
            | .error _ => (⟨500, .errorMsg "Failed to approve job"⟩, s)
            | .ok s2 =>
                (⟨200, .messageJob "Job approved successfully" (applyApproval now existingJob)⟩, s2)

/-- Item `DELETE /jobs/{id}`: unconditional delete-by-id; 404 exactly when the
store reports an error, 200 otherwise. -/
def DELETE (idStr : String) (s : Store) : Response × Store :=
  match deleteById s idStr with
  | .error _ => (⟨404, .errorMsg "Job not found"⟩, s)
  | .ok s2 => (⟨200, .message "Job deleted successfully"⟩, s2)

end JobIdRoute

/-- The concrete creation payload of the specification's end-to-end scenario. -/
def scenarioFields : List (String × Json) :=
  [("slug", .str "eng-1"), ("title", .str "Engineer"), ("type", .str "full-time"),
   ("location_type", .str "remote"), ("salary", .num 90000), ("company_name", .str "Acme"),
   ("approved", .bool false), ("created_at", .str "2024-01-01T00:00:00Z"),
   ("updated_at", .str "2024-01-01T00:00:00Z")]

/-- The record `scenarioFields` parses to. -/
def scenarioInput : JobInput :=
  { id := none, slug := "eng-1", title := "Engineer", type := "full-time"
    location_type := "remote", location := none, description := none
    salary := 90000, company_name := "Acme", application_email := none
    application_url := none, company_logo_url := none, approved := false
    created_at := "2024-01-01T00:00:00Z", updated_at := "2024-01-01T00:00:00Z" }

/-- The scenario payload with `approved` set to `true` by the client. -/
def approvedTrueFields : List (String × Json) :=
  setField scenarioFields "approved" (.bool true)

/-- The row the scenario payload produces in an empty store. -/
def scenarioJob : Job :=
  { id := 1, slug := "eng-1", title := "Engineer", type := "full-time"
    location_type := "remote", location := none, description := none
    salary := 90000, company_name := "Acme", application_email := none
    application_url := none, company_logo_url := none, approved := false
    created_at := "2024-01-01T00:00:00Z", updated_at := "2024-01-01T00:00:00Z" }

/-! ## Helper lemmas (shared) -/

/-- The schema `jobSchema` never fails with an empty issue list. -/
theorem jobSchemaParse_error_ne_nil {b : Json} {issues : List ZodIssue}
    (h : jobSchemaParse b = .error issues) : issues ≠ [] := by
  unfold jobSchemaParse at h
  split at h
  · split at h
    · exact Except.noConfusion h
    · injection h with h2; rw [← h2]; simp
  · injection h with h2; rw [← h2]; simp

/-- If no row of a store matches the identifier, `.single()` yields nothing. -/
theorem selectSingle_eq_none {s : Store} {idStr : String}
    (h : ∀ j ∈ s.rows, rowMatches idStr j = false) : selectSingle s idStr = none := by
  unfold selectSingle
  split
  · rfl
  · rw [List.filter_eq_nil_iff.mpr (by simpa using h)]

/-- Rows produced by the partial approval update: each is an original row,
either untouched or with the approval overlay applied. -/
theorem mem_updateApproval_rows {s : Store} {idStr now : String} {s2 : Store}
    (h : updateApproval s idStr now = .ok s2) {j2 : Job} (hj : j2 ∈ s2.rows) :
    ∃ j ∈ s.rows, j2 = j ∨ j2 = applyApproval now j := by
  unfold updateApproval at h
  split at h
  · cases h
  · cases h
    obtain ⟨j, hjm, hje⟩ := List.mem_map.1 hj
    refine ⟨j, hjm, ?_⟩
    by_cases hm : rowMatches idStr j
    · right; rw [← hje]; simp [hm]
    · left; rw [← hje]; simp [hm]

/-- The approval overlay does not change the row's id. -/
theorem applyApproval_id (now : String) (j : Job) : (applyApproval now j).id = j.id := rfl

/-- The approval overlay does not change whether a row matches an identifier. -/
theorem rowMatches_applyApproval (idStr now : String) (j : Job) :
    rowMatches idStr (applyApproval now j) = rowMatches idStr j := rfl

/-- Any row of an approval-updated row list that matches the identifier is approved. -/
theorem approved_after_update {rows : List Job} {idStr now : String} (r : Job)
    (hr : r ∈ rows.map (fun r0 => if rowMatches idStr r0 then applyApproval now r0 else r0))
    (hm : rowMatches idStr r = true) : r.approved = true := by
  obtain ⟨r0, hr0, hre⟩ := List.mem_map.1 hr
  by_cases h : rowMatches idStr r0
  · rw [← hre, if_pos h]
    rfl
  · rw [← hre, if_neg h] at hm
    exact absurd hm h

/-- Reading with `.single()` after the approval update: the row read before the update is
still the unique match, now with the overlay applied. -/
theorem selectSingle_updateApproval {s : Store} {idStr now : String} {j : Job}
    (hj : selectSingle s idStr = some j) (hf : s.failure = false) :
    selectSingle
      { s with rows := s.rows.map (fun r => if rowMatches idStr r then applyApproval now r else r) }
      idStr = some (applyApproval now j) := by
  unfold selectSingle at hj ⊢
  rw [hf] at hj
  simp only [Bool.false_eq_true, if_false] at hj
  simp only [Bool.false_eq_true, if_false]
  rw [List.filter_map]
  have hcong : s.rows.filter
      ((rowMatches idStr) ∘ (fun r => if rowMatches idStr r then applyApproval now r else r))
      = s.rows.filter (rowMatches idStr) := by
    apply List.filter_congr
    intro r _
    by_cases h : rowMatches idStr r
    · simp only [Function.comp_apply, if_pos h, rowMatches_applyApproval]
    · simp only [Function.comp_apply, if_neg h]
  rw [hcong]
  cases hfilter : s.rows.filter (rowMatches idStr) with
  | nil => rw [hfilter] at hj; exact Option.noConfusion hj
  | cons a l =>
      cases l with
      | cons b l2 => rw [hfilter] at hj; exact Option.noConfusion hj
      | nil =>
          rw [hfilter] at hj
          injection hj with hj2
          have ha : rowMatches idStr a = true := by
            have hmem : a ∈ s.rows.filter (rowMatches idStr) := by
              rw [hfilter]; exact List.mem_singleton_self a
            exact (List.mem_filter.1 hmem).2
          subst hj2
          simp [ha, hf]

/-- Inversion for a successful creation parse: the validated record is exactly
the field-by-field extraction from the payload. -/
theorem jobSchemaParse_ok_eq {fields : List (String × Json)} {d : JobInput}
    (hp : jobSchemaParse (.obj fields) = .ok d) :
    d = { id := getOptNumber fields "id"
          slug := getString fields "slug"
          title := getString fields "title"
          type := getString fields "type"
          location_type := getString fields "location_type"
          location := getOptString fields "location"
          description := getOptString fields "description"
          salary := getNumber fields "salary"
          company_name := getString fields "company_name"
          application_email := getOptString fields "application_email"
          application_url := getOptString fields "application_url"
          company_logo_url := getOptString fields "company_logo_url"
          approved := getBool fields "approved"
          created_at := getString fields "created_at"
          updated_at := getString fields "updated_at" } := by
  simp only [jobSchemaParse] at hp
  split at hp
  · injection hp with hp2
    rw [← hp2]
  · exact Except.noConfusion hp

/-- A successful creation parse also certifies an empty issue list. -/
theorem jobSchemaParse_ok_issues {fields : List (String × Json)} {d : JobInput}
    (hp : jobSchemaParse (.obj fields) = .ok d) : jobIssues fields = [] := by
  simp only [jobSchemaParse] at hp
  split at hp
  next hj => exact hj
  next => exact Except.noConfusion hp

/-- Create on a healthy store with a schema-accepted body: 201 and exactly one
appended row. -/
theorem POST_ok {b : Json} {d : JobInput} {s : Store}
    (hp : jobSchemaParse b = .ok d) (hf : s.failure = false) :
    JobsRoute.POST (some b) s
      = (⟨201, .text "job created successfully"⟩,
         { s with rows := s.rows ++ [rowOfInput d (nextId s)] }) := by
  simp only [JobsRoute.POST]
  split
  next issues heq => rw [hp] at heq; exact Except.noConfusion heq
  next d2 heq =>
    rw [hp] at heq
    injection heq with heq2
    subst heq2
    unfold insertOne
    rw [hf]
    rfl

/-- Create with a schema-rejected body: 400 with the issue list, store returned
unchanged. -/
theorem POST_error {b : Json} {issues : List ZodIssue} (s : Store)
    (hp : jobSchemaParse b = .error issues) :
    JobsRoute.POST (some b) s = (⟨400, .errorIssues issues⟩, s) := by
  simp only [JobsRoute.POST]
  split
  next issues2 heq =>
    rw [hp] at heq
    injection heq with heq2
    rw [heq2]
  next d2 heq => rw [hp] at heq; exact Except.noConfusion heq

/-! ## Claims -/

/-- Claim C9: a create request whose body is not parseable as JSON is caught by
the handler's `try` and answered with status 500 and body
`{error: "Failed to create job"}` — not a 400 validation error — and the store
is left untouched. -/
theorem C9_unparseable_create_body (s : Store) :
    JobsRoute.POST none s = (⟨500, .errorMsg "Failed to create job"⟩, s)
    ∧ (JobsRoute.POST none s).1.status ≠ 400 :=
  ⟨rfl, by simp [JobsRoute.POST]⟩

/-- Claim C4: whenever the creation schema rejects the body, create answers 400
carrying the (always non-empty) issue list and returns the store unchanged —
no store operation is issued. -/
theorem C4_create_validation_failure (b : Json) (issues : List ZodIssue) (s : Store)
    (h : jobSchemaParse b = .error issues) :
    JobsRoute.POST (some b) s = (⟨400, .errorIssues issues⟩, s) ∧ issues ≠ [] := by
  refine ⟨?_, jobSchemaParse_error_ne_nil h⟩
  simp [JobsRoute.POST, h]

/-- Witness for C4 at a concrete input: the scenario payload with `salary: -1`. -/
theorem C4_witness :
    JobsRoute.POST (some (.obj (setField scenarioFields "salary" (.num (-1))))) ⟨[], false⟩
      = (⟨400, .errorIssues [⟨["salary"], "Number must be greater than or equal to 0"⟩]⟩,
         ⟨[], false⟩)
    ∧ ([⟨["salary"], "Number must be greater than or equal to 0"⟩] : List ZodIssue) ≠ [] :=
  C4_create_validation_failure (.obj (setField scenarioFields "salary" (.num (-1))))
    [⟨["salary"], "Number must be greater than or equal to 0"⟩] ⟨[], false⟩ rfl


/-- Claim C2 counterexample: a payload that carries `approved: true` AND an
extra key still passes the approval schema (zod's default object mode strips
unknown keys rather than rejecting them), yet that payload does not contain
exactly the field `approved`. -/
theorem C2_counterexample :
    (approveJobSchemaParse (.obj [("approved", .bool true), ("x", .num 1)])).isOk = true
    ∧ Json.obj [("approved", .bool true), ("x", .num 1)] ≠ Json.obj [("approved", .bool true)] :=
  ⟨rfl, by simp⟩

/-- Claim C2 (amended): the approval schema succeeds exactly when the payload is
a JSON object whose `approved` field is the literal `true` — extra unknown keys
are stripped, not rejected.  `approved: false`, any other `approved` value, a
missing `approved` field, and a non-object payload all fail with issues. -/
theorem C2_approval_schema_iff (j : Json) :
    (approveJobSchemaParse j).isOk = true ↔
    ∃ fields, j = Json.obj fields ∧ lookupField fields "approved" = some (.bool true) := by
  cases j with
  | obj fields =>
      cases hl : lookupField fields "approved" with
      | none => simp [approveJobSchemaParse, hl, Except.isOk, Except.toBool]
      | some v =>
          cases v with
          | bool b => cases b <;> simp [approveJobSchemaParse, hl, Except.isOk, Except.toBool]
          | null => simp [approveJobSchemaParse, hl, Except.isOk, Except.toBool]
          | num n => simp [approveJobSchemaParse, hl, Except.isOk, Except.toBool]
          | str s => simp [approveJobSchemaParse, hl, Except.isOk, Except.toBool]
          | arr l => simp [approveJobSchemaParse, hl, Except.isOk, Except.toBool]
          | obj o => simp [approveJobSchemaParse, hl, Except.isOk, Except.toBool]
  | null => simp [approveJobSchemaParse, Except.isOk, Except.toBool]
  | bool b => simp [approveJobSchemaParse, Except.isOk, Except.toBool]
  | num n => simp [approveJobSchemaParse, Except.isOk, Except.toBool]
  | str s => simp [approveJobSchemaParse, Except.isOk, Except.toBool]
  | arr l => simp [approveJobSchemaParse, Except.isOk, Except.toBool]

/-- Claim C1 counterexample: the Create operation sets `approved` to `true`
when the client supplies it — the creation schema requires `approved` as an
arbitrary boolean, and the validated payload (with `approved: true`) is the
object inserted into the store.  Approval is thus not the only operation that
can make `approved` true. -/
theorem C1_counterexample :
    (JobsRoute.POST (some (.obj approvedTrueFields)) (Store.mk [] false)).1.status = 201
    ∧ ((JobsRoute.POST (some (.obj approvedTrueFields)) (Store.mk [] false)).2.rows.map
        Job.approved) = [true] :=
  ⟨rfl, rfl⟩

/-- Claim C1 (amended): on existing rows the `approved` field follows the state
machine {unapproved, approved}: the approve operation either leaves a row
untouched or overwrites it with the approval overlay (`approved := true`), so
it never un-approves; Create, however, inserts a new row whose `approved`
value — including `true` — is taken from the client payload. -/
theorem C1_approve_only_sets_true (idStr : String) (b : Json) (now : String) (s : Store)
    (j2 : Job) (h : j2 ∈ (JobIdRoute.PUT idStr b now s).2.rows) :
    j2 ∈ s.rows ∨ ∃ j ∈ s.rows, j2 = applyApproval now j := by
  unfold JobIdRoute.PUT at h
  split at h
  · exact Or.inl h
  · split at h
    · exact Or.inl h
    · split at h
      · exact Or.inl h
      · split at h
        · exact Or.inl h
        next s2 heq =>
          obtain ⟨j, hm, hor⟩ := mem_updateApproval_rows heq h
          cases hor with
          | inl he => exact Or.inl (he ▸ hm)
          | inr he => exact Or.inr ⟨j, hm, he⟩

/-- Witness for C1 at a concrete input: approving job 1 in a one-row store. -/
theorem C1_witness :
    applyApproval "T2" scenarioJob ∈ (Store.mk [scenarioJob] false).rows
    ∨ ∃ j ∈ (Store.mk [scenarioJob] false).rows,
        applyApproval "T2" scenarioJob = applyApproval "T2" j :=
  C1_approve_only_sets_true "1" (.obj [("approved", .bool true)]) "T2"
    (Store.mk [scenarioJob] false) (applyApproval "T2" scenarioJob)
    (by rw [show (JobIdRoute.PUT "1" (.obj [("approved", .bool true)]) "T2"
              (Store.mk [scenarioJob] false)).2.rows
            = [applyApproval "T2" scenarioJob] from rfl]
        exact List.mem_singleton_self _)

/-- Claim C3 counterexample: the creation schema admits a client-supplied `id`
(`id: z.number().optional()`), the validated object then contains that `id`,
and the object passed to the insert operation carries it into the store. -/
theorem C3_counterexample :
    jobSchemaParse (.obj (("id", .num 5) :: scenarioFields))
      = .ok { scenarioInput with id := some 5 }
    ∧ ((JobsRoute.POST (some (.obj (("id", .num 5) :: scenarioFields)))
          (Store.mk [] false)).2.rows.map Job.id) = [5] :=
  ⟨rfl, rfl⟩

/-- Claim C3 (amended): the creation schema admits an optional client-supplied
numeric `id`; the validated object's `id` is exactly the payload's `id` field
(when it is a number), and the inserted row uses it when present — the store
assigns an id only when the client supplied none. -/
theorem C3_client_id_admitted (b : Json) (d : JobInput) (s : Store)
    (hp : jobSchemaParse b = .ok d) (hf : s.failure = false) :
    (∀ fields, b = Json.obj fields → d.id = getOptNumber fields "id")
    ∧ (JobsRoute.POST (some b) s).1.status = 201
    ∧ (JobsRoute.POST (some b) s).2.rows = s.rows ++ [rowOfInput d (nextId s)]
    ∧ (rowOfInput d (nextId s)).id = d.id.getD (nextId s) := by
  refine ⟨?_, ?_, ?_, rfl⟩
  · intro fields hb
    subst hb
    rw [jobSchemaParse_ok_eq hp]
  · rw [POST_ok hp hf]
  · rw [POST_ok hp hf]

/-- Witness for C3 at a concrete input: the scenario payload in an empty store. -/
theorem C3_witness :
    (∀ fields, Json.obj scenarioFields = Json.obj fields →
        scenarioInput.id = getOptNumber fields "id")
    ∧ (JobsRoute.POST (some (.obj scenarioFields)) (Store.mk [] false)).1.status = 201
    ∧ (JobsRoute.POST (some (.obj scenarioFields)) (Store.mk [] false)).2.rows
        = (Store.mk [] false).rows ++ [rowOfInput scenarioInput (nextId (Store.mk [] false))]
    ∧ (rowOfInput scenarioInput (nextId (Store.mk [] false))).id
        = scenarioInput.id.getD (nextId (Store.mk [] false)) :=
  C3_client_id_admitted (.obj scenarioFields) scenarioInput (Store.mk [] false) rfl rfl

/-- Claim C5 counterexample: deleting an identifier that matches no row of a
healthy store succeeds at the store (a zero-row delete is not a store error),
so the handler answers 200, not 404. -/
theorem C5_counterexample :
    (Store.mk [] false).rows.filter (rowMatches "1") = []
    ∧ (JobIdRoute.DELETE "1" (Store.mk [] false)).1.status = 200
    ∧ (JobIdRoute.DELETE "1" (Store.mk [] false)).1.status ≠ 404 :=
  ⟨rfl, rfl, by decide⟩

/-- Claim C5 (amended): delete answers 404 exactly when the store reports an
error (a transport/store-level failure); when the store delete succeeds — in
particular when the identifier matches no row — it answers 200. -/
theorem C5_delete_status (idStr : String) (s : Store) :
    (JobIdRoute.DELETE idStr s).1.status = (if s.failure then 404 else 200) := by
  cases hf : s.failure <;> simp [JobIdRoute.DELETE, deleteById, hf]

/-- Approve on a healthy store with a valid body and exactly one matching row:
200 with the locally constructed view, and the partial update applied. -/
theorem PUT_ok {idStr : String} {b : Json} {now : String} {s : Store} {a : ApproveInput} {j : Job}
    (hid : idStr ≠ "") (hb : approveJobSchemaParse b = .ok a)
    (hj : selectSingle s idStr = some j) (hf : s.failure = false) :
    JobIdRoute.PUT idStr b now s
      = (⟨200, .messageJob "Job approved successfully" (applyApproval now j)⟩,
         { s with rows := s.rows.map (fun r => if rowMatches idStr r then applyApproval now r else r) }) := by
  unfold JobIdRoute.PUT
  rw [if_neg hid, hb, hj]
  unfold updateApproval
  rw [hf]
  rfl

/-- Claim C6: the approve error paths are ordered and distinguished — an
invalid body yields 400 with the violation list and the untouched store (the
store is never contacted), and a valid body whose identifier matches no row
yields 404, never 500. -/
theorem C6_approve_error_paths (idStr : String) (b : Json) (now : String) (s : Store)
    (hid : idStr ≠ "") :
    (∀ issues, approveJobSchemaParse b = .error issues →
        JobIdRoute.PUT idStr b now s = (⟨400, .errorIssues issues⟩, s))
    ∧ (∀ a, approveJobSchemaParse b = .ok a →
        (∀ j ∈ s.rows, rowMatches idStr j = false) →
        (JobIdRoute.PUT idStr b now s).1.status = 404
        ∧ (JobIdRoute.PUT idStr b now s).1.status ≠ 500) := by
  constructor
  · intro issues hiss
    unfold JobIdRoute.PUT
    rw [if_neg hid, hiss]
  · intro a ha hnone
    have hsel : selectSingle s idStr = none := selectSingle_eq_none hnone
    have hput : JobIdRoute.PUT idStr b now s
        = (⟨404, .errorMsg ("Job with ID " ++ idStr ++ " not found")⟩, s) := by
      unfold JobIdRoute.PUT
      rw [if_neg hid, ha, hsel]
    rw [hput]
    exact ⟨rfl, by simp⟩

/-- Witness for C6 at concrete inputs: `{approved: false}` on an empty store
yields 400 with the literal-mismatch issue; `{approved: true}` on an empty
store yields 404 and not 500. -/
theorem C6_witness :
    JobIdRoute.PUT "1" (.obj [("approved", .bool false)]) "T" (Store.mk [] false)
      = (⟨400, .errorIssues [⟨["approved"], "Invalid literal value, expected true"⟩]⟩,
         Store.mk [] false)
    ∧ ((JobIdRoute.PUT "1" (.obj [("approved", .bool true)]) "T" (Store.mk [] false)).1.status = 404
       ∧ (JobIdRoute.PUT "1" (.obj [("approved", .bool true)]) "T" (Store.mk [] false)).1.status ≠ 500) :=
  ⟨(C6_approve_error_paths "1" (.obj [("approved", .bool false)]) "T" (Store.mk [] false)
      (by decide)).1 [⟨["approved"], "Invalid literal value, expected true"⟩] rfl,
   (C6_approve_error_paths "1" (.obj [("approved", .bool true)]) "T" (Store.mk [] false)
      (by decide)).2 ⟨true⟩ rfl (by simp)⟩

/-- Claim C7: a successful approve updates only the `approved` and `updated_at`
columns of the matching row (every non-matching row is unchanged, and the
overlay preserves every other column), and the 200 response carries the
locally constructed view — the previously read row with `approved` forced to
`true` and `updated_at` set to the handler's current time — not a fresh read. -/
theorem C7_approve_success_frame (idStr : String) (b : Json) (now : String) (s : Store)
    (hid : idStr ≠ "") (a : ApproveInput) (hb : approveJobSchemaParse b = .ok a)
    (j : Job) (hj : selectSingle s idStr = some j) (hf : s.failure = false) :
    (JobIdRoute.PUT idStr b now s).1
      = ⟨200, .messageJob "Job approved successfully" (applyApproval now j)⟩
    ∧ (JobIdRoute.PUT idStr b now s).2.rows
      = s.rows.map (fun r => if rowMatches idStr r then applyApproval now r else r)
    ∧ (∀ r ∈ s.rows, rowMatches idStr r = false →
        r ∈ (JobIdRoute.PUT idStr b now s).2.rows)
    ∧ (∀ r : Job, (applyApproval now r).id = r.id ∧ (applyApproval now r).slug = r.slug
        ∧ (applyApproval now r).title = r.title ∧ (applyApproval now r).type = r.type
        ∧ (applyApproval now r).location_type = r.location_type
        ∧ (applyApproval now r).location = r.location
        ∧ (applyApproval now r).description = r.description
        ∧ (applyApproval now r).salary = r.salary
        ∧ (applyApproval now r).company_name = r.company_name
        ∧ (applyApproval now r).application_email = r.application_email
        ∧ (applyApproval now r).application_url = r.application_url
        ∧ (applyApproval now r).company_logo_url = r.company_logo_url
        ∧ (applyApproval now r).created_at = r.created_at
        ∧ (applyApproval now r).approved = true
        ∧ (applyApproval now r).updated_at = now) := by
  have hput := @PUT_ok idStr b now s a j hid hb hj hf
  rw [hput]
  refine ⟨rfl, rfl, ?_, ?_⟩
  · intro r hr hnm
    exact List.mem_map.mpr ⟨r, hr, by simp [hnm]⟩
  · intro r
    exact ⟨rfl, rfl, rfl, rfl, rfl, rfl, rfl, rfl, rfl, rfl, rfl, rfl, rfl, rfl, rfl⟩

/-- Witness for C7 at a concrete input: approving job 1 in a one-row store. -/
theorem C7_witness :
    (JobIdRoute.PUT "1" (.obj [("approved", .bool true)]) "T2"
        (Store.mk [scenarioJob] false)).1
      = ⟨200, .messageJob "Job approved successfully" (applyApproval "T2" scenarioJob)⟩ :=
  (C7_approve_success_frame "1" (.obj [("approved", .bool true)]) "T2"
    (Store.mk [scenarioJob] false) (by decide) ⟨true⟩ rfl scenarioJob rfl rfl).1

/-- Claim C8: approve is idempotent in effect — a first approve of an existing
job answers 200 and leaves every matching row approved, and a second approve
of the same identifier still answers 200 with the job still approved. -/
theorem C8_approve_idempotent (idStr : String) (b : Json) (now now2 : String) (s : Store)
    (hid : idStr ≠ "") (a : ApproveInput) (hb : approveJobSchemaParse b = .ok a)
    (j : Job) (hj : selectSingle s idStr = some j) (hf : s.failure = false) :
    (JobIdRoute.PUT idStr b now s).1.status = 200
    ∧ (∀ r ∈ (JobIdRoute.PUT idStr b now s).2.rows,
        rowMatches idStr r = true → r.approved = true)
    ∧ (JobIdRoute.PUT idStr b now2 ((JobIdRoute.PUT idStr b now s).2)).1.status = 200
    ∧ (∀ r ∈ (JobIdRoute.PUT idStr b now2 ((JobIdRoute.PUT idStr b now s).2)).2.rows,
        rowMatches idStr r = true → r.approved = true) := by
  have h1 := @PUT_ok idStr b now s a j hid hb hj hf
  have e2 : (JobIdRoute.PUT idStr b now s).2
      = { s with rows := s.rows.map (fun r => if rowMatches idStr r then applyApproval now r else r) } := by
    rw [h1]
  have hsel2 := @selectSingle_updateApproval s idStr now j hj hf
  have h2 := @PUT_ok idStr b now2 _ a (applyApproval now j) hid hb hsel2 hf
  constructor
  · rw [h1]
  constructor
  · rw [e2]
    intro r hr hm
    exact approved_after_update r hr hm
  constructor
  · rw [e2, h2]
  · rw [e2, h2]
    intro r hr hm
    exact approved_after_update r hr hm

/-- Witness for C8 at a concrete input: approving job 1 twice in a one-row
store; both calls answer 200. -/
theorem C8_witness :
    (JobIdRoute.PUT "1" (.obj [("approved", .bool true)]) "T2"
        (Store.mk [scenarioJob] false)).1.status = 200
    ∧ (JobIdRoute.PUT "1" (.obj [("approved", .bool true)]) "T3"
        ((JobIdRoute.PUT "1" (.obj [("approved", .bool true)]) "T2"
            (Store.mk [scenarioJob] false)).2)).1.status = 200 :=
  ⟨(C8_approve_idempotent "1" (.obj [("approved", .bool true)]) "T2" "T3"
      (Store.mk [scenarioJob] false) (by decide) ⟨true⟩ rfl scenarioJob rfl rfl).1,
   (C8_approve_idempotent "1" (.obj [("approved", .bool true)]) "T2" "T3"
      (Store.mk [scenarioJob] false) (by decide) ⟨true⟩ rfl scenarioJob rfl rfl).2.2.1⟩

/-- Looking up the key just set yields the new value. -/
theorem lookupField_setField_self (fields : List (String × Json)) (k : String) (v : Json) :
    lookupField (setField fields k v) k = some v := by
  induction fields with
  | nil => simp [setField, lookupField]
  | cons p rest ih =>
      obtain ⟨k2, v2⟩ := p
      by_cases h : k2 = k
      · simp [setField, lookupField, h]
      · simp [setField, lookupField, h, ih]

/-- Setting one key leaves lookups of every other key unchanged. -/
theorem lookupField_setField_other (fields : List (String × Json)) (k k2 : String) (v : Json)
    (h : k2 ≠ k) : lookupField (setField fields k v) k2 = lookupField fields k2 := by
  induction fields with
  | nil => simp [setField, lookupField, Ne.symm h]
  | cons p rest ih =>
      obtain ⟨k3, v3⟩ := p
      by_cases h3 : k3 = k
      · subst h3
        simp [setField, lookupField, Ne.symm h]
      · simp [setField, lookupField, h3, ih]

/-- An object payload with no issues parses to the field-by-field extraction. -/
theorem jobSchemaParse_obj_of_issues_nil {fields : List (String × Json)}
    (h : jobIssues fields = []) :
    jobSchemaParse (.obj fields)
      = .ok { id := getOptNumber fields "id"
              slug := getString fields "slug"
              title := getString fields "title"
              type := getString fields "type"
              location_type := getString fields "location_type"
              location := getOptString fields "location"
              description := getOptString fields "description"
              salary := getNumber fields "salary"
              company_name := getString fields "company_name"
              application_email := getOptString fields "application_email"
              application_url := getOptString fields "application_url"
              company_logo_url := getOptString fields "company_logo_url"
              approved := getBool fields "approved"
              created_at := getString fields "created_at"
              updated_at := getString fields "updated_at" } := by
  simp only [jobSchemaParse, h]

/-- Claim C10: the creation schema performs no format check on `created_at` and
`updated_at` — starting from any payload the schema accepts, replacing those
two fields by arbitrary strings (empty or non-timestamp included) still
parses, with exactly those strings in the validated object, and create
forwards them unchanged into the inserted row. -/
theorem C10_timestamps_unchecked (fields : List (String × Json)) (d : JobInput) (c u : String)
    (hp : jobSchemaParse (.obj fields) = .ok d) :
    jobSchemaParse (.obj (setField (setField fields "created_at" (.str c)) "updated_at" (.str u))) = .ok { d with created_at := c, updated_at := u }
    ∧ ∀ s : Store, s.failure = false →
        (JobsRoute.POST (some (.obj (setField (setField fields "created_at" (.str c)) "updated_at" (.str u)))) s).2.rows = s.rows ++ [rowOfInput { d with created_at := c, updated_at := u } (nextId s)]
        ∧ (rowOfInput { d with created_at := c, updated_at := u } (nextId s)).created_at = c
        ∧ (rowOfInput { d with created_at := c, updated_at := u } (nextId s)).updated_at = u := by
  have hiss := jobSchemaParse_ok_issues hp
  have hdeq := jobSchemaParse_ok_eq hp
  have l_ca : lookupField (setField (setField fields "created_at" (.str c)) "updated_at" (.str u)) "created_at" = some (.str c) := by
    rw [lookupField_setField_other _ _ _ _ (by decide), lookupField_setField_self]
  have l_ua : lookupField (setField (setField fields "created_at" (.str c)) "updated_at" (.str u)) "updated_at" = some (.str u) :=
    lookupField_setField_self _ _ _
  have l_other : ∀ k : String, k ≠ "created_at" → k ≠ "updated_at" →
      lookupField (setField (setField fields "created_at" (.str c)) "updated_at" (.str u)) k = lookupField fields k := by
    intro k h1 h2
    rw [lookupField_setField_other _ _ _ _ h2, lookupField_setField_other _ _ _ _ h1]
  have hiss2 : jobIssues (setField (setField fields "created_at" (.str c)) "updated_at" (.str u)) = [] := by
    unfold jobIssues at hiss ⊢
    rw [l_ca, l_ua,
      l_other "id" (by decide) (by decide),
      l_other "slug" (by decide) (by decide),
      l_other "title" (by decide) (by decide),
      l_other "type" (by decide) (by decide),
      l_other "location_type" (by decide) (by decide),
      l_other "location" (by decide) (by decide),
      l_other "description" (by decide) (by decide),
      l_other "salary" (by decide) (by decide),
      l_other "company_name" (by decide) (by decide),
      l_other "application_email" (by decide) (by decide),
      l_other "application_url" (by decide) (by decide),
      l_other "company_logo_url" (by decide) (by decide),
      l_other "approved" (by decide) (by decide)]
    simp only [List.append_eq_nil] at hiss
    simp only [checkString, List.append_nil, List.append_eq_nil]
    tauto
  have hok : jobSchemaParse (.obj (setField (setField fields "created_at" (.str c)) "updated_at" (.str u))) = .ok { d with created_at := c, updated_at := u } := by
    rw [jobSchemaParse_obj_of_issues_nil hiss2, hdeq]
    simp only [getString, getOptString, getNumber, getOptNumber, getBool, l_ca, l_ua,
      l_other "id" (by decide) (by decide),
      l_other "slug" (by decide) (by decide),
      l_other "title" (by decide) (by decide),
      l_other "type" (by decide) (by decide),
      l_other "location_type" (by decide) (by decide),
      l_other "location" (by decide) (by decide),
      l_other "description" (by decide) (by decide),
      l_other "salary" (by decide) (by decide),
      l_other "company_name" (by decide) (by decide),
      l_other "application_email" (by decide) (by decide),
      l_other "application_url" (by decide) (by decide),
      l_other "company_logo_url" (by decide) (by decide),
      l_other "approved" (by decide) (by decide)]
  refine ⟨hok, ?_⟩
  intro s hf
  rw [POST_ok hok hf]
  exact ⟨rfl, rfl, rfl⟩

/-- Witness for C10 at a concrete input: the scenario payload with
`created_at` replaced by the empty string and `updated_at` by a non-timestamp
string still parses, carrying those strings verbatim. -/
theorem C10_witness :
    jobSchemaParse (.obj (setField (setField scenarioFields "created_at" (.str "")) "updated_at" (.str "not-a-timestamp")))
      = .ok { scenarioInput with created_at := "", updated_at := "not-a-timestamp" } :=
  (C10_timestamps_unchecked scenarioFields scenarioInput "" "not-a-timestamp" rfl).1
